import Mathlib

/-
  Verification development for the Chronicle API client
  (src/google_secops/chronicle/client.py).

  The client submits a long-running search, extracts an operation id from
  the submit response, and polls a status endpoint until a completion flag
  appears at one of three recognized JSON locations; completed responses
  are reshaped (event list, or columnar stats turned row-major).

  JSON bodies are modelled by the inductive type JVal below; the dynamic
  dict/list accesses of the Python code (get with default, subscription,
  membership, len, int conversion) are modelled by functions returning
  Except String so that the AttributeError / KeyError / IndexError /
  TypeError behavior of the source is preserved.  HTTP transport is
  injected: a submit response and a function from attempt index to poll
  response.
-/

namespace GoogleSecOps

/-- A JSON-like Python value: None, bool, str, int, list, dict. -/
inductive JVal where
  | null
  | bool (b : Bool)
  | str (s : String)
  | num (n : Int)
  | arr (elems : List JVal)
  | obj (fields : List (String × JVal))

/-- Python truthiness: None, False, 0, empty string, empty list and empty
dict are falsy, everything else is truthy. -/
def JVal.truthy : JVal → Bool
  | .null => false
  | .bool b => b
  | .str s => !(s == "")
  | .num n => !(n == 0)
  | .arr xs => !xs.isEmpty
  | .obj fs => !fs.isEmpty

/-- Whether the value is a Python dict. -/
def isObj : JVal → Bool
  | .obj _ => true
  | _ => false

/-- The field of a dict, if the value is a dict and the key is present. -/
def objField : JVal → String → Option JVal
  | .obj fs, k => List.lookup k fs
  | _, _ => none

/-- Python style d.get(k, default): on a dict return the field or the
default; on any other value this is an AttributeError. -/
def JVal.pyGet : JVal → String → JVal → Except String JVal
  | .obj fs, k, d => .ok ((List.lookup k fs).getD d)
  | _, _, _ => .error "AttributeError: value has no attribute get"

/-- Python style d[k] for a string key: KeyError when the key is missing,
TypeError when the value is a list or scalar.  The error text is a nominal
rendering of the Python exception. -/
def JVal.pySub : JVal → String → Except String JVal
  | .obj fs, k =>
    match List.lookup k fs with
    | some v => .ok v
    | none => .error ("KeyError: " ++ k)
  | _, _ => .error "TypeError: value is not subscriptable by string"

/-- Python style xs[i] for a nonnegative index: IndexError when out of
range, KeyError on a dict (integer keys never occur in these objects),
TypeError on scalars. -/
def JVal.pyIndex : JVal → Nat → Except String JVal
  | .arr xs, i =>
    match xs.get? i with
    | some v => .ok v
    | none => .error "IndexError: list index out of range"
  | .str s, i =>
    match s.toList.get? i with
    | some c => .ok (.str c.toString)
    | none => .error "IndexError: string index out of range"
  | .obj _, _ => .error "KeyError: integer key"
  | _, _ => .error "TypeError: value is not subscriptable"

/-- Equality used for dict keys.  Only hashable values reach this point,
so no recursion into lists or dicts is needed.  The Python unification of
bool and int keys (True == 1) is not modelled; no column name produced by
the backend is a bare bool. -/
def keyEq : JVal → JVal → Bool
  | .null, .null => true
  | .bool a, .bool b => a == b
  | .str a, .str b => a == b
  | .num a, .num b => a == b
  | _, _ => false

/-- Substring test, used for Python membership tests on strings and to
state what an error message does or does not carry. -/
def strContains (s pat : String) : Bool :=
  s.toList.tails.any fun t => pat.toList.isPrefixOf t

/-- Python membership k in v for a string k: key test on dicts, element
test on lists, substring test on strings, TypeError otherwise. -/
def JVal.pyContains : JVal → String → Except String Bool
  | .obj fs, k => .ok (List.lookup k fs).isSome
  | .arr xs, k => .ok (xs.any fun x => keyEq x (.str k))
  | .str s, k => .ok (strContains s k)
  | _, _ => .error "TypeError: argument is not iterable"

/-- Python iteration: elements of a list, keys of a dict, characters of a
string, TypeError otherwise. -/
def pyIter : JVal → Except String (List JVal)
  | .arr xs => .ok xs
  | .obj fs => .ok (fs.map fun p => .str p.1)
  | .str s => .ok (s.toList.map fun c => .str c.toString)
  | _ => .error "TypeError: value is not iterable"

/-- Python len: lists, strings and dicts have a length, TypeError
otherwise. -/
def JVal.pyLen : JVal → Except String Nat
  | .arr xs => .ok xs.length
  | .str s => .ok s.length
  | .obj fs => .ok fs.length
  | _ => .error "TypeError: value has no len"

/-- Decimal digit accumulator for the int conversion. -/
def parseDigits : List Char → Nat → Option Nat
  | [], acc => some acc
  | c :: cs, acc =>
    if c.isDigit then parseDigits cs (acc * 10 + (c.toNat - 48)) else none

/-- The decimal parse performed by Python int(str): an optional sign
followed by at least one digit.  Surrounding whitespace and digit-group
underscores, which int() also accepts, are not modelled; the backend
serializes int64Val as plain signed decimal. -/
def pyIntParse (s : String) : Option Int :=
  match s.toList with
  | [] => none
  | '-' :: [] => none
  | '-' :: cs => (parseDigits cs 0).map fun n => -(n : Int)
  | '+' :: [] => none
  | '+' :: cs => (parseDigits cs 0).map fun n => (n : Int)
  | cs => (parseDigits cs 0).map fun n => (n : Int)

/-- Python int(x): ints pass through, bools map to 0 or 1, strings are
parsed (ValueError when unparsable), everything else is a TypeError. -/
def pyIntOf : JVal → Except String Int
  | .num n => .ok n
  | .bool b => .ok (if b then 1 else 0)
  | .str s =>
    match pyIntParse s with
    | some n => .ok n
    | none => .error "ValueError: invalid literal for int"
  | _ => .error "TypeError: int argument must be a string or a number"

/-- Python hashability: lists and dicts cannot be dict keys. -/
def hashable : JVal → Bool
  | .arr _ => false
  | .obj _ => false
  | _ => true

/-- One row of the shaped stats result, a Python dict built by repeated
key assignment. -/
abbrev Row := List (JVal × JVal)

/-- Python dict assignment row[k] = v: overwrite in place when the key is
present, append otherwise; unhashable keys raise TypeError. -/
def rowSet (row : Row) (k v : JVal) : Except String Row :=
  if hashable k then
    .ok (if row.any fun p => keyEq p.1 k then
           row.map fun p => if keyEq p.1 k then (p.1, v) else p
         else row ++ [(k, v)])
  else .error "TypeError: unhashable type"

/-- Sequencing of fallible Python evaluation steps. -/
def eBind {ε α β : Type} (x : Except ε α) (f : α → Except ε β) : Except ε β :=
  match x with
  | .error e => .error e
  | .ok a => f a

/-- The value returned by _process_stats_results: either the empty case
dict, whose literal in the source has exactly the keys rows and columns,
or the shaped table, whose literal has the keys columns, rows and
total_rows. -/
inductive StatsOut where
  | empty
  | table (columns : List JVal) (rows : List Row) (total_rows : Nat)

/-- The keys of the dict literal each constructor of StatsOut embeds, in
source order. -/
def StatsOut.keys : StatsOut → List String
  | .empty => ["rows", "columns"]
  | .table _ _ _ => ["columns", "rows", "total_rows"]

/-- The column-name pass of _process_stats_results: for col in results,
if "column" in col then columns.append(col["column"]). -/
def collectColumns : List JVal → Except String (List JVal)
  | [] => .ok []
  | col :: rest =>
    eBind (col.pyContains "column") fun b =>
    if b then
      eBind (col.pySub "column") fun c =>
      eBind (collectColumns rest) fun tail =>
      .ok (c :: tail)
    else
      collectColumns rest

/-- The inner loop of _process_stats_results building one row at index i:
for col in results, read col["column"] and col["values"][i]["value"], then
assign row[col_name] from the stringVal / int64Val / fallback dispatch. -/
def buildRow (i : Nat) : List JVal → Row → Except String Row
  | [], row => .ok row
  | col :: rest, row =>
    eBind (col.pySub "column") fun colName =>
    eBind (col.pySub "values") fun vals =>
    eBind (vals.pyIndex i) fun entry =>
    eBind (entry.pySub "value") fun value =>
    eBind (value.pyContains "stringVal") fun hasS =>
    if hasS then
      eBind (value.pySub "stringVal") fun sv =>
      eBind (rowSet row colName sv) fun row2 =>
      buildRow i rest row2
    else
      eBind (value.pyContains "int64Val") fun hasI =>
      if hasI then
        eBind (value.pySub "int64Val") fun iv =>
        eBind (pyIntOf iv) fun n =>
        eBind (rowSet row colName (.num n)) fun row2 =>
        buildRow i rest row2
      else
        eBind (rowSet row colName .null) fun row2 =>
        buildRow i rest row2

/-- The outer row loop, for i in range(num_rows): the fuel argument is the
number of remaining indices, so the call with fuel = num_rows and i = 0
enumerates 0, 1, ..., num_rows - 1 in order, appending one row each. -/
def buildRowsGo (cols : List JVal) : Nat → Nat → Except String (List Row)
  | 0, _ => .ok []
  | fuel + 1, i =>
    eBind (buildRow i cols []) fun row =>
    eBind (buildRowsGo cols fuel (i + 1)) fun rest =>
    .ok (row :: rest)

/-- The body of the try block of _process_stats_results, transcribed in
the evaluation order of the source: read response.stats with dict
defaults, return the empty dict when stats is falsy, collect column
names, then if results is truthy iterate row indices up to the length of
the first column values array. -/
def processStatsTry (results : JVal) : Except String StatsOut :=
  eBind (results.pyGet "response" (.obj [])) fun rsp =>
  eBind (rsp.pyGet "stats" (.obj [])) fun stats =>
  if !stats.truthy then .ok .empty
  else
    eBind (stats.pyGet "results" (.arr [])) fun colSrc =>
    eBind (pyIter colSrc) fun colList =>
    eBind (collectColumns colList) fun columns =>
    eBind (stats.pyGet "results" .null) fun resCheck =>
    if resCheck.truthy then
      eBind (stats.pySub "results") fun resList =>
      eBind (resList.pyIndex 0) fun firstCol =>
      eBind (firstCol.pyGet "values" (.arr [])) fun firstVals =>
      eBind firstVals.pyLen fun numRows =>
      eBind (pyIter resList) fun iterCols =>
      eBind (buildRowsGo iterCols numRows 0) fun rows =>
      .ok (.table columns rows rows.length)
    else .ok (.table columns [] 0)

/-- ChronicleClient._process_stats_results: any exception raised inside
the try block is wrapped into APIError with this fixed message text in
front of it. -/
def process_stats_results (results : JVal) : Except String StatsOut :=
  match processStatsTry results with
  | .ok out => .ok out
  | .error e => .error ("Error processing stats results: " ++ e)

/-- An HTTP response as the client sees it: status code, raw text (used
in error messages) and parsed JSON body. -/
structure HttpResponse where
  status : Nat
  text : String
  body : JVal

/-- Errors escaping a search call: APIError raised by the client itself,
or an uncaught Python exception from the dynamic JSON traversal. -/
inductive SearchError where
  | apiError (msg : String)
  | pyError (msg : String)

/-- Lift an uncaught Python exception into the search error type. -/
def liftPy {α : Type} : Except String α → Except SearchError α
  | .ok a => .ok a
  | .error e => .error (.pyError e)

/-- Lift an APIError raised by a helper into the search error type. -/
def liftApi {α : Type} : Except String α → Except SearchError α
  | .ok a => .ok a
  | .error e => .error (.apiError e)

/-- The array-versus-object normalization applied to every poll body:
if isinstance(results, list): results = results[0]. -/
def normalizeBody : JVal → Except String JVal
  | .arr [] => .error "IndexError: list index out of range"
  | .arr (x :: _) => .ok x
  | j => .ok j

/-- The three-location completion check of the poll loop, in source
order with Python or short-circuiting: results.get("done"), then
results.get("operation", {}).get("done"), then
results.get("response", {}).get("complete"). -/
def doneFlag (results : JVal) : Except String JVal :=
  eBind (results.pyGet "done" .null) fun d1 =>
  if d1.truthy then .ok d1
  else
    eBind (results.pyGet "operation" (.obj [])) fun op =>
    eBind (op.pyGet "done" .null) fun d2 =>
    if d2.truthy then .ok d2
    else
      eBind (results.pyGet "response" (.obj [])) fun rsp =>
      rsp.pyGet "complete" .null

/-- The two-path events extraction of search_udm:
results.get("response", {}).get("events", {}).get("events", []) or
the same chain under operation. -/
def eventsPayload (results : JVal) : Except String JVal :=
  eBind (results.pyGet "response" (.obj [])) fun rsp =>
  eBind (rsp.pyGet "events" (.obj [])) fun ev =>
  eBind (ev.pyGet "events" (.arr [])) fun e1 =>
  if e1.truthy then .ok e1
  else
    eBind (results.pyGet "operation" (.obj [])) fun op =>
    eBind (op.pyGet "response" (.obj [])) fun rsp2 =>
    eBind (rsp2.pyGet "events" (.obj [])) fun ev2 =>
    ev2.pyGet "events" (.arr [])

/-- The two-path stats extraction of get_stats:
results.get("response", {}).get("stats") or
results.get("operation", {}).get("response", {}).get("stats"). -/
def statsPayload (results : JVal) : Except String JVal :=
  eBind (results.pyGet "response" (.obj [])) fun rsp =>
  eBind (rsp.pyGet "stats" .null) fun s1 =>
  if s1.truthy then .ok s1
  else
    eBind (results.pyGet "operation" (.obj [])) fun op =>
    eBind (op.pyGet "response" (.obj [])) fun rsp2 =>
    rsp2.pyGet "stats" .null

/-- The dict search_udm returns on completion:
{"events": events, "total_events": len(events)}. -/
structure UdmOutcome where
  events : JVal
  total_events : Nat

/-- One iteration of the search_udm poll loop on one HTTP response:
ok none means not done yet (sleep and retry), ok (some out) is the
returned result, error aborts the call. -/
def searchUdmStep (r : HttpResponse) : Except SearchError (Option UdmOutcome) :=
  if r.status ≠ 200 then .error (.apiError ("Error fetching results: " ++ r.text))
  else
    eBind (liftPy (normalizeBody r.body)) fun results =>
    eBind (liftPy (doneFlag results)) fun done =>
    if done.truthy then
      eBind (liftPy (eventsPayload results)) fun events =>
      eBind (liftPy events.pyLen) fun n =>
      .ok (some ⟨events, n⟩)
    else .ok none

/-- One iteration of the get_stats poll loop on one HTTP response; on a
truthy completion flag the stats block is extracted and, when truthy,
rewrapped as {"response": {"stats": stats}} and handed to
_process_stats_results, else APIError is raised. -/
def getStatsStep (r : HttpResponse) : Except SearchError (Option StatsOut) :=
  if r.status ≠ 200 then .error (.apiError ("Error fetching results: " ++ r.text))
  else
    eBind (liftPy (normalizeBody r.body)) fun results =>
    eBind (liftPy (doneFlag results)) fun done =>
    if done.truthy then
      eBind (liftPy (statsPayload results)) fun stats =>
      if stats.truthy then
        eBind (liftApi (process_stats_results (.obj [("response", .obj [("stats", stats)])]))) fun out =>
        .ok (some out)
      else .error (.apiError "No stats found in completed response")
    else .ok none

/-- The timeout message raised when the attempt ceiling is reached:
Search timed out after {max_attempts} attempts. -/
def timeoutMsg (maxAttempts : Nat) : String :=
  "Search timed out after " ++ toString maxAttempts ++ " attempts"

/-- The bounded poll loop shared verbatim by search_udm and get_stats,
parameterized by the per-response step.  The fuel argument encodes the
while guard attempt < max_attempts as fuel = max_attempts - attempt; the
second component of the result counts the GET requests performed. -/
def pollLoopGo {α : Type} (step : HttpResponse → Except SearchError (Option α))
    (poll : Nat → HttpResponse) (maxAttempts : Nat) :
    Nat → Nat → Except SearchError α × Nat
  | 0, attempt => (.error (.apiError (timeoutMsg maxAttempts)), attempt)
  | fuel + 1, attempt =>
    match step (poll attempt) with
    | .error e => (.error e, attempt + 1)
    | .ok (some out) => (.ok out, attempt + 1)
    | .ok none => pollLoopGo step poll maxAttempts fuel (attempt + 1)

/-- The poll loop started at a given attempt counter. -/
def pollLoopFrom {α : Type} (step : HttpResponse → Except SearchError (Option α))
    (poll : Nat → HttpResponse) (maxAttempts attempt : Nat) :
    Except SearchError α × Nat :=
  pollLoopGo step poll maxAttempts (maxAttempts - attempt) attempt

/-- The poll loop of search_udm (client.py lines 393-422), instrumented
with the number of GET requests performed. -/
def search_udm_poll (poll : Nat → HttpResponse) (maxAttempts : Nat) :
    Except SearchError UdmOutcome × Nat :=
  pollLoopFrom searchUdmStep poll maxAttempts 0

/-- The poll loop of get_stats (client.py lines 244-277), instrumented
with the number of GET requests performed. -/
def get_stats_poll (poll : Nat → HttpResponse) (maxAttempts : Nat) :
    Except SearchError StatsOut × Nat :=
  pollLoopFrom getStatsStep poll maxAttempts 0

/-- The operation-id extraction inside the try block: a list body reads
only element zero and its operation field; a non-list body reads
operation, falling back to name when operation is falsy. -/
def extractOperationIdTry : JVal → Except String JVal
  | .arr xs =>
    eBind ((JVal.arr xs).pyIndex 0) fun first =>
    first.pyGet "operation" .null
  | j =>
    eBind (j.pyGet "operation" .null) fun a =>
    if a.truthy then .ok a else j.pyGet "name" .null

/-- The full operation-id extraction: exceptions inside the try block
become an APIError, and a falsy extracted id raises the missing-id
APIError.  The response payload interpolated into both source messages is
omitted here. -/
def extractOperationId (operation : JVal) : Except SearchError JVal :=
  match extractOperationIdTry operation with
  | .error e => .error (.apiError ("Error extracting operation ID. Error: " ++ e))
  | .ok oid =>
    if oid.truthy then .ok oid
    else .error (.apiError "No operation ID found in response")

/-- ChronicleClient.search_udm with the transport injected: submit
response plus a poll response per attempt index. -/
def search_udm (submit : HttpResponse) (poll : Nat → HttpResponse)
    (max_attempts : Nat) : Except SearchError UdmOutcome :=
  if submit.status ≠ 200 then
    .error (.apiError ("Error initiating search: Status " ++ toString submit.status ++
      ", Response: " ++ submit.text))
  else
    eBind (extractOperationId submit.body) fun _ =>
    (search_udm_poll poll max_attempts).1

/-- ChronicleClient.get_stats with the transport injected. -/
def get_stats (submit : HttpResponse) (poll : Nat → HttpResponse)
    (max_attempts : Nat) : Except SearchError StatsOut :=
  if submit.status ≠ 200 then
    .error (.apiError ("Error initiating search: Status " ++ toString submit.status ++
      ", Response: " ++ submit.text))
  else
    eBind (extractOperationId submit.body) fun _ =>
    (get_stats_poll poll max_attempts).1

/-- The intermediate node the code reaches with v.get(k, {}): the field
when present, the empty dict otherwise. -/
def nodeAt (j : JVal) (k : String) : JVal :=
  (objField j k).getD (.obj [])

/-- The field k of a dict j is absent or itself a dict, so that a chained
get on it cannot raise AttributeError. -/
def subOk (j : JVal) (k : String) : Bool :=
  match objField j k with
  | some v => isObj v
  | none => true

/-- A poll response body of one of the documented object shapes: a dict
whose operation, response, operation.response, response.events and
operation.response.events nodes, where present, are dicts.  Every chained
get the poll loop performs on such a body is AttributeError-free. -/
def pollWellShaped (r : JVal) : Bool :=
  isObj r && subOk r "operation" && subOk r "response" &&
  subOk (nodeAt r "operation") "response" &&
  subOk (nodeAt r "response") "events" &&
  subOk (nodeAt (nodeAt r "operation") "response") "events"

/-- The completion flag at the top-level done location. -/
def topDone (r : JVal) : JVal := (objField r "done").getD .null

/-- The completion flag at the nested operation.done location. -/
def opDone (r : JVal) : JVal := (objField (nodeAt r "operation") "done").getD .null

/-- The completion flag at the nested response.complete location. -/
def respComplete (r : JVal) : JVal := (objField (nodeAt r "response") "complete").getD .null

/-- The body exposes a truthy completion flag at top level. -/
def flagAtTop (r : JVal) : Bool := (topDone r).truthy

/-- The body exposes a truthy completion flag under operation. -/
def flagAtOperation (r : JVal) : Bool := (opDone r).truthy

/-- The body exposes a truthy completion flag under response. -/
def flagAtResponse (r : JVal) : Bool := (respComplete r).truthy

/-- The value the three-location or-chain evaluates to on a well-shaped
body: the first truthy flag in precedence order, else the last location
value. -/
def doneValue (r : JVal) : JVal :=
  if flagAtTop r then topDone r
  else if flagAtOperation r then opDone r
  else respComplete r

/-- The value the stats or-chain evaluates to on a well-shaped body. -/
def statsValue (r : JVal) : JVal :=
  let s1 := (objField (nodeAt r "response") "stats").getD .null
  if s1.truthy then s1
  else (objField (nodeAt (nodeAt r "operation") "response") "stats").getD .null

/-- The value the events or-chain evaluates to on a well-shaped body. -/
def eventsValue (r : JVal) : JVal :=
  let e1 := (objField (nodeAt (nodeAt r "response") "events") "events").getD (.arr [])
  if e1.truthy then e1
  else (objField (nodeAt (nodeAt (nodeAt r "operation") "response") "events") "events").getD (.arr [])

/-- Whether a shaping result is the wrapped processing-error APIError. -/
def isProcessingError (x : Except String StatsOut) : Bool :=
  match x with
  | .error e => ("Error processing stats results: ".toList).isPrefixOf e.toList
  | .ok _ => false

/-- A completed poll body carrying no events or stats payload at any
recognized path. -/
def doneNoPayload : JVal := .obj [("done", .bool true)]

/-- A well-shaped 200 poll response that never exposes a completion
flag. -/
def pendingResp : HttpResponse :=
  ⟨200, "", .obj [("progress", .str "running")]⟩

/-- A poll response with a non-200 status; its text deliberately does not
contain the digits of the status code. -/
def badPollResp : HttpResponse := ⟨500, "backend exploded", .null⟩

/-- A submit body carrying the operation identifier only in its name
field. -/
def nameOnlyBody : JVal := .obj [("name", .str "opId")]

/-- A submit body carrying the operation identifier in its operation
field. -/
def operationBody : JVal := .obj [("operation", .str "op-7")]

/-- A poll body exposing a truthy completion flag only at the nested
response.complete location. -/
def flagRespBody : JVal := .obj [("response", .obj [("complete", .bool true)])]

/-- Two event objects used by the event-shaping claim. -/
def ev1 : JVal := .obj [("id", .str "e1")]

/-- The second event object used by the event-shaping claim. -/
def ev2 : JVal := .obj [("id", .str "e2")]

/-- A completed poll body with the events list [ev1, ev2] at the first
recognized events path. -/
def eventsBody : JVal :=
  .obj [("done", .bool true),
        ("response", .obj [("events", .obj [("events", .arr [ev1, ev2])])])]

/-- The stats columns exactly as claim C7 writes them, with each values
entry lacking the value wrapper object the code subscripts. -/
def statsColumnsBare : JVal :=
  .obj [("response", .obj [("stats", .obj [("results", .arr
    [.obj [("column", .str "host"), ("values", .arr [.obj [("stringVal", .str "a")]])],
     .obj [("column", .str "count"), ("values", .arr [.obj [("int64Val", .str "3")]])]])])])]

/-- The same stats input with each values entry wrapped as
{value: {...}}, which is the shape the code reads. -/
def statsColumnsWrapped : JVal :=
  .obj [("response", .obj [("stats", .obj [("results", .arr
    [.obj [("column", .str "host"),
           ("values", .arr [.obj [("value", .obj [("stringVal", .str "a")])]])],
     .obj [("column", .str "count"),
           ("values", .arr [.obj [("value", .obj [("int64Val", .str "3")])]])]])])])]

/-- The values array of a two-entry host column. -/
def hostValsTwo : List JVal :=
  [.obj [("value", .obj [("stringVal", .str "a")])],
   .obj [("value", .obj [("stringVal", .str "b")])]]

/-- The values array of a two-entry count column. -/
def countValsTwo : List JVal :=
  [.obj [("value", .obj [("int64Val", .str "3")])],
   .obj [("value", .obj [("int64Val", .str "4")])]]

/-- Two consistent columns of two values each. -/
def statsTwoCols : List JVal :=
  [.obj [("column", .str "host"), ("values", .arr hostValsTwo)],
   .obj [("column", .str "count"), ("values", .arr countValsTwo)]]

/-- A stats input with two consistent two-value columns. -/
def statsTwoRows : JVal :=
  .obj [("response", .obj [("stats", .obj [("results", .arr statsTwoCols)])])]

/-- The rows the two-column input shapes to. -/
def statsTwoRowsOut : List Row :=
  [[(.str "host", .str "a"), (.str "count", .num 3)],
   [(.str "host", .str "b"), (.str "count", .num 4)]]

/-- Columns whose second values array is shorter than the first. -/
def raggedCols : List JVal :=
  [.obj [("column", .str "host"), ("values", .arr hostValsTwo)],
   .obj [("column", .str "count"),
         ("values", .arr [.obj [("value", .obj [("int64Val", .str "3")])]])]]

/-- A stats input with a ragged second column. -/
def statsRagged : JVal :=
  .obj [("response", .obj [("stats", .obj [("results", .arr raggedCols)])])]

theorem eBind_ok {ε α β : Type} (a : α) (f : α → Except ε β) :
    eBind (.ok a) f = f a := rfl

theorem eBind_error {ε α β : Type} (e : ε) (f : α → Except ε β) :
    eBind (.error e) f = .error e := rfl

theorem liftPy_ok {α : Type} (a : α) : liftPy (.ok a) = (.ok a : Except SearchError α) := rfl

theorem liftPy_error {α : Type} (e : String) :
    liftPy (.error e : Except String α) = .error (.pyError e) := rfl

theorem liftApi_ok {α : Type} (a : α) : liftApi (.ok a) = (.ok a : Except SearchError α) := rfl

theorem liftApi_error {α : Type} (e : String) :
    liftApi (.error e : Except String α) = .error (.apiError e) := rfl

theorem objField_isObj {j : JVal} {k : String} {v : JVal}
    (h : objField j k = some v) : isObj j = true := by
  cases j <;> simp_all [objField, isObj]

theorem truthy_of_objField {j : JVal} {k : String} {v : JVal}
    (h : objField j k = some v) : j.truthy = true := by
  cases j <;> simp_all [objField, JVal.truthy]
  rename_i fs
  cases fs <;> simp_all [List.lookup]

theorem pyGet_eval {j : JVal} (h : isObj j = true) (k d : _) :
    j.pyGet k d = .ok ((objField j k).getD d) := by
  cases j <;> simp_all [isObj, JVal.pyGet, objField]

theorem pySub_eval {j : JVal} {k : String} {v : JVal}
    (h : objField j k = some v) : j.pySub k = .ok v := by
  cases j <;> simp_all [objField, JVal.pySub]

theorem pyIndex_arr_eval {xs : List JVal} {i : Nat} {v : JVal}
    (h : xs.get? i = some v) : (JVal.arr xs).pyIndex i = .ok v := by
  have h2 : xs[i]? = some v := by rw [← List.get?_eq_getElem?]; exact h
  simp [JVal.pyIndex, h2]

theorem normalizeBody_obj {j : JVal} (h : isObj j = true) :
    normalizeBody j = .ok j := by
  cases j <;> simp_all [isObj, normalizeBody]

theorem isObj_nodeAt {r : JVal} {k : String} (h : subOk r k = true) :
    isObj (nodeAt r k) = true := by
  unfold subOk at h
  unfold nodeAt
  cases hf : objField r k <;> simp_all [isObj]

theorem pyGet_nodeAt {r : JVal} (h : isObj r = true) (k : String) :
    r.pyGet k (.obj []) = .ok (nodeAt r k) := by
  rw [pyGet_eval h]
  rfl

theorem pollWellShaped_parts {r : JVal} (h : pollWellShaped r = true) :
    isObj r = true ∧ subOk r "operation" = true ∧ subOk r "response" = true ∧
    subOk (nodeAt r "operation") "response" = true ∧
    subOk (nodeAt r "response") "events" = true ∧
    subOk (nodeAt (nodeAt r "operation") "response") "events" = true := by
  simp only [pollWellShaped, Bool.and_eq_true] at h
  exact ⟨h.1.1.1.1.1, h.1.1.1.1.2, h.1.1.1.2, h.1.1.2, h.1.2, h.2⟩

theorem doneFlag_eval {r : JVal} (h : pollWellShaped r = true) :
    doneFlag r = .ok (doneValue r) := by
  obtain ⟨hr, hop, hrsp, -, -, -⟩ := pollWellShaped_parts h
  unfold doneFlag doneValue flagAtTop flagAtOperation topDone opDone respComplete
  rw [pyGet_eval hr, eBind_ok]
  by_cases h1 : ((objField r "done").getD JVal.null).truthy
  · simp [h1]
  · rw [if_neg (by simp [h1]), pyGet_nodeAt hr "operation", eBind_ok,
      pyGet_eval (isObj_nodeAt hop), eBind_ok]
    by_cases h2 : ((objField (nodeAt r "operation") "done").getD JVal.null).truthy
    · simp [h1, h2]
    · rw [if_neg (by simp [h2]), pyGet_nodeAt hr "response", eBind_ok,
        pyGet_eval (isObj_nodeAt hrsp)]
      simp [h1, h2]

theorem statsPayload_eval {r : JVal} (h : pollWellShaped r = true) :
    statsPayload r = .ok (statsValue r) := by
  obtain ⟨hr, hop, hrsp, hopr, -, -⟩ := pollWellShaped_parts h
  unfold statsPayload statsValue
  rw [pyGet_nodeAt hr "response", eBind_ok,
    pyGet_eval (isObj_nodeAt hrsp), eBind_ok]
  by_cases h1 : ((objField (nodeAt r "response") "stats").getD JVal.null).truthy
  · simp [h1]
  · rw [if_neg (by simp [h1]), pyGet_nodeAt hr "operation", eBind_ok,
      pyGet_nodeAt (isObj_nodeAt hop) "response", eBind_ok,
      pyGet_eval (isObj_nodeAt hopr)]
    simp [h1]

theorem eventsPayload_eval {r : JVal} (h : pollWellShaped r = true) :
    eventsPayload r = .ok (eventsValue r) := by
  obtain ⟨hr, hop, hrsp, hopr, hev, hopev⟩ := pollWellShaped_parts h
  unfold eventsPayload eventsValue
  rw [pyGet_nodeAt hr "response", eBind_ok,
    pyGet_nodeAt (isObj_nodeAt hrsp) "events", eBind_ok,
    pyGet_eval (isObj_nodeAt hev), eBind_ok]
  by_cases h1 : ((objField (nodeAt (nodeAt r "response") "events") "events").getD (JVal.arr [])).truthy
  · simp [h1]
  · rw [if_neg (by simp [h1]), pyGet_nodeAt hr "operation", eBind_ok,
      pyGet_nodeAt (isObj_nodeAt hop) "response", eBind_ok,
      pyGet_nodeAt (isObj_nodeAt hopr) "events", eBind_ok,
      pyGet_eval (isObj_nodeAt hopev)]
    simp [h1]

theorem doneValue_truthy (r : JVal) :
    (doneValue r).truthy = (flagAtTop r || flagAtOperation r || flagAtResponse r) := by
  unfold doneValue flagAtTop flagAtOperation flagAtResponse
  split_ifs <;> simp_all

theorem searchUdmStep_not200 {r : HttpResponse} (h : r.status ≠ 200) :
    searchUdmStep r = .error (.apiError ("Error fetching results: " ++ r.text)) := by
  simp [searchUdmStep, h]

theorem getStatsStep_not200 {r : HttpResponse} (h : r.status ≠ 200) :
    getStatsStep r = .error (.apiError ("Error fetching results: " ++ r.text)) := by
  simp [getStatsStep, h]

theorem searchUdmStep_pending {r : HttpResponse} (h200 : r.status = 200)
    (hw : pollWellShaped r.body = true)
    (hf : (doneValue r.body).truthy = false) :
    searchUdmStep r = .ok none := by
  obtain ⟨hr, -⟩ := pollWellShaped_parts hw
  unfold searchUdmStep
  simp [h200, normalizeBody_obj hr, doneFlag_eval hw, liftPy_ok, eBind_ok, hf]

theorem getStatsStep_pending {r : HttpResponse} (h200 : r.status = 200)
    (hw : pollWellShaped r.body = true)
    (hf : (doneValue r.body).truthy = false) :
    getStatsStep r = .ok none := by
  obtain ⟨hr, -⟩ := pollWellShaped_parts hw
  unfold getStatsStep
  simp [h200, normalizeBody_obj hr, doneFlag_eval hw, liftPy_ok, eBind_ok, hf]

theorem searchUdmStep_done {r : HttpResponse} (h200 : r.status = 200)
    (hw : pollWellShaped r.body = true)
    (hd : (doneValue r.body).truthy = true) {es : List JVal}
    (hev : eventsValue r.body = .arr es) :
    searchUdmStep r = .ok (some ⟨.arr es, es.length⟩) := by
  obtain ⟨hr, -⟩ := pollWellShaped_parts hw
  unfold searchUdmStep
  simp [h200, normalizeBody_obj hr, doneFlag_eval hw, liftPy_ok, eBind_ok, hd,
    eventsPayload_eval hw, hev, JVal.pyLen]

theorem getStatsStep_nostats {r : HttpResponse} (h200 : r.status = 200)
    (hw : pollWellShaped r.body = true)
    (hd : (doneValue r.body).truthy = true)
    (hs : (statsValue r.body).truthy = false) :
    getStatsStep r = .error (.apiError "No stats found in completed response") := by
  obtain ⟨hr, -⟩ := pollWellShaped_parts hw
  unfold getStatsStep
  simp [h200, normalizeBody_obj hr, doneFlag_eval hw, liftPy_ok, eBind_ok, hd,
    statsPayload_eval hw, hs]

theorem searchUdmStep_done_ne_pending {r : HttpResponse} (h200 : r.status = 200)
    (hw : pollWellShaped r.body = true)
    (hd : (doneValue r.body).truthy = true) :
    searchUdmStep r ≠ .ok none := by
  obtain ⟨hr, -⟩ := pollWellShaped_parts hw
  unfold searchUdmStep
  simp only [h200, ne_eq, not_true_eq_false, if_false, Bool.false_eq_true, ite_false,
    normalizeBody_obj hr, doneFlag_eval hw, liftPy_ok, eBind_ok, hd, if_true]
  cases hev : eventsPayload r.body with
  | error e => simp [hev, liftPy_error, eBind_error]
  | ok ev =>
    cases hn : ev.pyLen with
    | error e => simp [hev, hn, liftPy_ok, eBind_ok, liftPy_error, eBind_error]
    | ok n => simp [hev, hn, liftPy_ok, eBind_ok]

theorem getStatsStep_done_ne_pending {r : HttpResponse} (h200 : r.status = 200)
    (hw : pollWellShaped r.body = true)
    (hd : (doneValue r.body).truthy = true) :
    getStatsStep r ≠ .ok none := by
  obtain ⟨hr, -⟩ := pollWellShaped_parts hw
  unfold getStatsStep
  simp only [h200, ne_eq, not_true_eq_false, if_false, Bool.false_eq_true, ite_false,
    normalizeBody_obj hr, doneFlag_eval hw, liftPy_ok, eBind_ok, hd, if_true]
  cases hs : (statsValue r.body).truthy
  · simp [statsPayload_eval hw, liftPy_ok, eBind_ok, hs]
  · simp only [statsPayload_eval hw, liftPy_ok, eBind_ok, hs, if_true]
    cases hp : process_stats_results (.obj [("response", .obj [("stats", statsValue r.body)])]) with
    | error e => simp [hp, liftApi_error, eBind_error]
    | ok out => simp [hp, liftApi_ok, eBind_ok]

theorem pollLoopGo_pending {α : Type} {step : HttpResponse → Except SearchError (Option α)}
    {poll : Nat → HttpResponse} (m fuel a : Nat) (h : step (poll a) = .ok none) :
    pollLoopGo step poll m (fuel + 1) a = pollLoopGo step poll m fuel (a + 1) := by
  simp [pollLoopGo, h]

theorem pollLoopGo_done {α : Type} {step : HttpResponse → Except SearchError (Option α)}
    {poll : Nat → HttpResponse} (m fuel a : Nat) {out : α}
    (h : step (poll a) = .ok (some out)) :
    pollLoopGo step poll m (fuel + 1) a = (.ok out, a + 1) := by
  simp [pollLoopGo, h]

theorem pollLoopGo_err {α : Type} {step : HttpResponse → Except SearchError (Option α)}
    {poll : Nat → HttpResponse} (m fuel a : Nat) {e : SearchError}
    (h : step (poll a) = .error e) :
    pollLoopGo step poll m (fuel + 1) a = (.error e, a + 1) := by
  simp [pollLoopGo, h]

theorem pollLoopGo_allPending {α : Type} (step : HttpResponse → Except SearchError (Option α))
    (poll : Nat → HttpResponse) (m : Nat) :
    ∀ fuel a, (∀ i, a ≤ i → i < a + fuel → step (poll i) = .ok none) →
    pollLoopGo step poll m fuel a = (.error (.apiError (timeoutMsg m)), a + fuel) := by
  intro fuel
  induction fuel with
  | zero => intro a _; simp [pollLoopGo]
  | succ n ih =>
    intro a h
    rw [pollLoopGo_pending m n a (h a (Nat.le_refl a) (by omega))]
    rw [ih (a + 1) fun i hi1 hi2 => h i (by omega) (by omega)]
    have e2 : a + 1 + n = a + (n + 1) := by omega
    rw [e2]

theorem pollLoopGo_count {α : Type} (step : HttpResponse → Except SearchError (Option α))
    (poll : Nat → HttpResponse) (m : Nat) :
    ∀ fuel a, (pollLoopGo step poll m fuel a).2 ≤ a + fuel := by
  intro fuel
  induction fuel with
  | zero => intro a; simp [pollLoopGo]
  | succ n ih =>
    intro a
    simp only [pollLoopGo]
    cases h : step (poll a) with
    | error e => simp
    | ok o =>
      cases o with
      | none =>
        show (pollLoopGo step poll m n (a + 1)).2 ≤ a + (n + 1)
        have := ih (a + 1)
        omega
      | some out => simp

theorem pollLoopGo_skip {α : Type} (step : HttpResponse → Except SearchError (Option α))
    (poll : Nat → HttpResponse) (m : Nat) :
    ∀ j fuel a, j ≤ fuel →
    (∀ i, a ≤ i → i < a + j → step (poll i) = .ok none) →
    pollLoopGo step poll m fuel a = pollLoopGo step poll m (fuel - j) (a + j) := by
  intro j
  induction j with
  | zero => intro fuel a _ _; rfl
  | succ n ih =>
    intro fuel a hle h
    cases fuel with
    | zero => omega
    | succ f =>
      rw [pollLoopGo_pending m f a (h a (Nat.le_refl a) (by omega))]
      rw [ih f (a + 1) (by omega) fun i hi1 hi2 => h i (by omega) (by omega)]
      have e1 : f - n = f + 1 - (n + 1) := by omega
      have e2 : a + 1 + n = a + (n + 1) := by omega
      rw [e1, e2]

theorem pyIndex_arr_ok_lt {xs : List JVal} {i : Nat} {v : JVal}
    (h : (JVal.arr xs).pyIndex i = .ok v) : i < xs.length := by
  by_contra hge
  have hnone : xs[i]? = none := List.getElem?_eq_none (by omega)
  simp [JVal.pyIndex, hnone] at h

theorem buildRow_cons_ok {i : Nat} {col : JVal} {rest : List JVal} {row out : Row}
    (h : buildRow i (col :: rest) row = .ok out) :
    (∃ vals entry, col.pySub "values" = .ok vals ∧ vals.pyIndex i = .ok entry) ∧
    (∃ row2, buildRow i rest row2 = .ok out) := by
  simp only [buildRow] at h
  cases h1 : col.pySub "column" with
  | error e => simp [h1, eBind_error] at h
  | ok colName =>
  rw [h1, eBind_ok] at h
  cases h2 : col.pySub "values" with
  | error e => simp [h2, eBind_error] at h
  | ok vals =>
  rw [h2, eBind_ok] at h
  cases h3 : vals.pyIndex i with
  | error e => simp [h3, eBind_error] at h
  | ok entry =>
  rw [h3, eBind_ok] at h
  refine ⟨⟨vals, entry, rfl, h3⟩, ?_⟩
  cases h4 : entry.pySub "value" with
  | error e => simp [h4, eBind_error] at h
  | ok value =>
  rw [h4, eBind_ok] at h
  cases h5 : value.pyContains "stringVal" with
  | error e => simp [h5, eBind_error] at h
  | ok hasS =>
  rw [h5, eBind_ok] at h
  cases hasS with
  | true =>
    rw [if_pos rfl] at h
    cases h6 : value.pySub "stringVal" with
    | error e => simp [h6, eBind_error] at h
    | ok sv =>
    rw [h6, eBind_ok] at h
    cases h7 : rowSet row colName sv with
    | error e => simp [h7, eBind_error] at h
    | ok row2 =>
    rw [h7, eBind_ok] at h
    exact ⟨row2, h⟩
  | false =>
    rw [if_neg (by simp)] at h
    cases h6 : value.pyContains "int64Val" with
    | error e => simp [h6, eBind_error] at h
    | ok hasI =>
    rw [h6, eBind_ok] at h
    cases hasI with
    | true =>
      rw [if_pos rfl] at h
      cases h7 : value.pySub "int64Val" with
      | error e => simp [h7, eBind_error] at h
      | ok iv =>
      rw [h7, eBind_ok] at h
      cases h8 : pyIntOf iv with
      | error e => simp [h8, eBind_error] at h
      | ok n =>
      rw [h8, eBind_ok] at h
      cases h9 : rowSet row colName (.num n) with
      | error e => simp [h9, eBind_error] at h
      | ok row2 =>
      rw [h9, eBind_ok] at h
      exact ⟨row2, h⟩
    | false =>
      rw [if_neg (by simp)] at h
      cases h7 : rowSet row colName .null with
      | error e => simp [h7, eBind_error] at h
      | ok row2 =>
      rw [h7, eBind_ok] at h
      exact ⟨row2, h⟩

theorem buildRow_values_bound {i : Nat} :
    ∀ (cols : List JVal) (row out : Row), buildRow i cols row = .ok out →
    ∀ (k : Nat) (ck : JVal) (vs : List JVal), cols.get? k = some ck →
    objField ck "values" = some (.arr vs) → i < vs.length := by
  intro cols
  induction cols with
  | nil => intro row out _ k ck vs hk; simp [List.get?] at hk
  | cons col rest ih =>
    intro row out h k ck vs hk hvs
    obtain ⟨⟨vals, entry, hv, hidx⟩, row2, hrest⟩ := buildRow_cons_ok h
    cases k with
    | zero =>
      rw [List.get?_cons_zero] at hk
      injection hk with hke
      subst hke
      rw [pySub_eval hvs] at hv
      cases hv
      exact pyIndex_arr_ok_lt hidx
    | succ k2 =>
      rw [List.get?_cons_succ] at hk
      exact ih row2 out hrest k2 ck vs hk hvs

theorem buildRowsGo_length (cols : List JVal) :
    ∀ fuel a l, buildRowsGo cols fuel a = .ok l → l.length = fuel := by
  intro fuel
  induction fuel with
  | zero =>
    intro a l h
    simp only [buildRowsGo] at h
    cases h
    rfl
  | succ n ih =>
    intro a l h
    simp only [buildRowsGo] at h
    cases hr : buildRow a cols [] with
    | error e => rw [hr, eBind_error] at h; cases h
    | ok row =>
      rw [hr, eBind_ok] at h
      cases hrest : buildRowsGo cols n (a + 1) with
      | error e => rw [hrest, eBind_error] at h; cases h
      | ok rest =>
        rw [hrest, eBind_ok] at h
        cases h
        simp [ih (a + 1) rest hrest]

theorem buildRowsGo_ok_each (cols : List JVal) :
    ∀ fuel a l, buildRowsGo cols fuel a = .ok l →
    ∀ i, a ≤ i → i < a + fuel → ∃ row, buildRow i cols [] = .ok row := by
  intro fuel
  induction fuel with
  | zero => intro a l _ i hi1 hi2; omega
  | succ n ih =>
    intro a l h i hi1 hi2
    simp only [buildRowsGo] at h
    cases hr : buildRow a cols [] with
    | error e => rw [hr, eBind_error] at h; cases h
    | ok row =>
      rw [hr, eBind_ok] at h
      cases hrest : buildRowsGo cols n (a + 1) with
      | error e => rw [hrest, eBind_error] at h; cases h
      | ok rest =>
        rcases Nat.eq_or_lt_of_le hi1 with he | hlt
        · exact ⟨row, he ▸ hr⟩
        · exact ih (a + 1) rest hrest i hlt (by omega)

theorem processStatsTry_eval {results stats : JVal} {cols : List JVal} {c0 : JVal}
    {vs0 : List JVal}
    (h1 : objField (nodeAt results "response") "stats" = some stats)
    (h2 : objField stats "results" = some (.arr cols))
    (h3 : cols.get? 0 = some c0)
    (h4 : objField c0 "values" = some (.arr vs0)) :
    processStatsTry results =
      eBind (collectColumns cols) fun columns =>
      eBind (buildRowsGo cols vs0.length 0) fun rows =>
      .ok (.table columns rows rows.length) := by
  cases hrva : objField results "response" with
  | none =>
    unfold nodeAt at h1
    rw [hrva] at h1
    simp [objField, List.lookup] at h1
  | some rv =>
    have hnr : nodeAt results "response" = rv := by unfold nodeAt; rw [hrva]; rfl
    rw [hnr] at h1
    have hro : isObj results = true := objField_isObj hrva
    have hrvo : isObj rv = true := objField_isObj h1
    have hso : isObj stats = true := objField_isObj h2
    have hc0o : isObj c0 = true := objField_isObj h4
    have hst : stats.truthy = true := truthy_of_objField h2
    have hcolt : (JVal.arr cols).truthy = true := by
      cases cols with
      | nil => simp [List.get?] at h3
      | cons a tl => simp [JVal.truthy]
    unfold processStatsTry
    rw [pyGet_nodeAt hro "response", hnr]
    simp only [eBind_ok]
    rw [pyGet_eval hrvo]
    simp only [h1, Option.getD_some, eBind_ok]
    rw [if_neg (by simp [hst])]
    rw [pyGet_eval hso]
    simp only [h2, Option.getD_some, eBind_ok, pyIter]
    simp only [pyGet_eval hso, h2, Option.getD_some, eBind_ok, hcolt, if_true,
      pySub_eval h2, pyIndex_arr_eval h3, pyGet_eval hc0o, h4, JVal.pyLen]

theorem isPrefixOf_self_append (l1 l2 : List Char) : l1.isPrefixOf (l1 ++ l2) = true := by
  induction l1 with
  | nil => simp [List.isPrefixOf]
  | cons c cs ih => simp [List.isPrefixOf, ih]

theorem isProcessingError_wrap (e : String) :
    isProcessingError (.error ("Error processing stats results: " ++ e)) = true := by
  have hd : ("Error processing stats results: " ++ e).toList =
      "Error processing stats results: ".toList ++ e.toList := by
    simp [String.toList, String.data_append]
  show ("Error processing stats results: ".toList).isPrefixOf
      ("Error processing stats results: " ++ e).toList = true
  rw [hd]
  exact isPrefixOf_self_append _ _

theorem pyContains_obj {v : JVal} (h : isObj v = true) (k : String) :
    v.pyContains k = .ok (objField v k).isSome := by
  cases v <;> simp_all [isObj, JVal.pyContains, objField]

/-- C1 counterexample.  On the completed poll response whose body is the
bare object with done = true and no payload anywhere, get_stats fails
with the IncompleteResult APIError but search_udm returns a successful
Done outcome (empty events, total_events 0) on the very first attempt, so
the claim that both calls fail with IncompleteResult is false on the
code. -/
theorem claim_C1_counterexample :
    getStatsStep ⟨200, "", doneNoPayload⟩ =
      .error (.apiError "No stats found in completed response") ∧
    searchUdmStep ⟨200, "", doneNoPayload⟩ = .ok (some ⟨.arr [], 0⟩) ∧
    search_udm_poll (fun _ => ⟨200, "", doneNoPayload⟩) 30 = (.ok ⟨.arr [], 0⟩, 1) :=
  ⟨rfl, rfl, rfl⟩

/-- C1 (amended): for every well-shaped 200 poll response whose
completion flag is truthy at a recognized location but which carries no
events or stats payload at any recognized nested path, get_stats fails
with the IncompleteResult APIError "No stats found in completed
response", while search_udm instead returns a Done outcome whose events
list is empty and whose total_events is 0. -/
theorem claim_C1_thm (r : JVal) (t : String)
    (hw : pollWellShaped r = true)
    (hdone : (doneValue r).truthy = true)
    (hs1 : objField (nodeAt r "response") "stats" = none)
    (hs2 : objField (nodeAt (nodeAt r "operation") "response") "stats" = none)
    (he1 : objField (nodeAt (nodeAt r "response") "events") "events" = none)
    (he2 : objField (nodeAt (nodeAt (nodeAt r "operation") "response") "events") "events" = none) :
    getStatsStep ⟨200, t, r⟩ = .error (.apiError "No stats found in completed response") ∧
    searchUdmStep ⟨200, t, r⟩ = .ok (some ⟨.arr [], 0⟩) := by
  constructor
  · apply getStatsStep_nostats rfl hw hdone
    unfold statsValue
    simp [hs1, hs2, JVal.truthy]
  · have hev : eventsValue r = .arr [] := by
      unfold eventsValue
      simp [he1, he2, JVal.truthy]
    exact searchUdmStep_done rfl hw hdone hev

/-- C1 witness: the amended theorem applied at the concrete completed
no-payload response. -/
theorem claim_C1_witness :
    getStatsStep ⟨200, "", doneNoPayload⟩ =
      .error (.apiError "No stats found in completed response") ∧
    searchUdmStep ⟨200, "", doneNoPayload⟩ = .ok (some ⟨.arr [], 0⟩) :=
  claim_C1_thm doneNoPayload "" rfl rfl rfl rfl rfl rfl

/-- C2: against well-shaped 200 poll responses that never expose a
completion flag at any of the three locations, both poll loops with
max_attempts 3 perform exactly 3 GET attempts and then fail with the
timeout APIError whose message names the 3 attempts made; and in general,
for any transport and any max_attempts, the number of GET attempts the
loop performs never exceeds max_attempts. -/
theorem claim_C2 (poll : Nat → HttpResponse)
    (h : ∀ i, i < 3 → (poll i).status = 200 ∧ pollWellShaped (poll i).body = true ∧
      flagAtTop (poll i).body = false ∧ flagAtOperation (poll i).body = false ∧
      flagAtResponse (poll i).body = false) :
    search_udm_poll poll 3 = (.error (.apiError "Search timed out after 3 attempts"), 3) ∧
    get_stats_poll poll 3 = (.error (.apiError "Search timed out after 3 attempts"), 3) ∧
    ∀ (q : Nat → HttpResponse) (m : Nat),
      (search_udm_poll q m).2 ≤ m ∧ (get_stats_poll q m).2 ≤ m := by
  have hflag : ∀ i, i < 3 → (doneValue (poll i).body).truthy = false := by
    intro i hi
    obtain ⟨-, -, hc, hd, he⟩ := h i hi
    rw [doneValue_truthy]
    simp [hc, hd, he]
  have hs : ∀ i, i < 3 → searchUdmStep (poll i) = .ok none := fun i hi =>
    searchUdmStep_pending (h i hi).1 (h i hi).2.1 (hflag i hi)
  have hg : ∀ i, i < 3 → getStatsStep (poll i) = .ok none := fun i hi =>
    getStatsStep_pending (h i hi).1 (h i hi).2.1 (hflag i hi)
  refine ⟨?_, ?_, ?_⟩
  · unfold search_udm_poll pollLoopFrom
    rw [pollLoopGo_allPending searchUdmStep poll 3 (3 - 0) 0
      fun i h1 h2 => hs i (by omega)]
    rfl
  · unfold get_stats_poll pollLoopFrom
    rw [pollLoopGo_allPending getStatsStep poll 3 (3 - 0) 0
      fun i h1 h2 => hg i (by omega)]
    rfl
  · intro q m
    constructor
    · unfold search_udm_poll pollLoopFrom
      have := pollLoopGo_count searchUdmStep q m (m - 0) 0
      omega
    · unfold get_stats_poll pollLoopFrom
      have := pollLoopGo_count getStatsStep q m (m - 0) 0
      omega

/-- C2 witness: the theorem applied to the constant pending transport. -/
theorem claim_C2_witness :
    search_udm_poll (fun _ => pendingResp) 3 =
      (.error (.apiError "Search timed out after 3 attempts"), 3) ∧
    get_stats_poll (fun _ => pendingResp) 3 =
      (.error (.apiError "Search timed out after 3 attempts"), 3) :=
  ⟨(claim_C2 (fun _ => pendingResp) fun _ _ => ⟨rfl, rfl, rfl, rfl, rfl⟩).1,
   (claim_C2 (fun _ => pendingResp) fun _ _ => ⟨rfl, rfl, rfl, rfl, rfl⟩).2.1⟩

/-- C3: every well-shaped 200 poll response exposing a truthy completion
flag at exactly one of the three recognized locations is recognized as
complete (the evaluated flag is truthy, so neither poll loop treats the
response as pending), and the three locations are consulted in the
precedence order top-level done, operation.done, response.complete. -/
theorem claim_C3 (r : JVal) (t : String)
    (hw : pollWellShaped r = true)
    (hone : (cond (flagAtTop r) 1 0) + (cond (flagAtOperation r) 1 0) +
      (cond (flagAtResponse r) 1 0) = 1) :
    (doneValue r).truthy = true ∧
    doneFlag r = .ok (doneValue r) ∧
    (flagAtTop r = true → doneValue r = topDone r) ∧
    (flagAtTop r = false → flagAtOperation r = true → doneValue r = opDone r) ∧
    (flagAtTop r = false → flagAtOperation r = false → flagAtResponse r = true →
      doneValue r = respComplete r) ∧
    searchUdmStep ⟨200, t, r⟩ ≠ .ok none ∧
    getStatsStep ⟨200, t, r⟩ ≠ .ok none := by
  have hor : (flagAtTop r || flagAtOperation r || flagAtResponse r) = true := by
    cases hA : flagAtTop r <;> cases hB : flagAtOperation r <;>
      cases hC : flagAtResponse r <;> simp_all
  have hdv : (doneValue r).truthy = true := by rw [doneValue_truthy]; exact hor
  refine ⟨hdv, doneFlag_eval hw, ?_, ?_, ?_, ?_, ?_⟩
  · intro hA; simp [doneValue, hA]
  · intro hA hB; simp [doneValue, hA, hB]
  · intro hA hB hC; simp [doneValue, hA, hB]
  · exact searchUdmStep_done_ne_pending rfl hw hdv
  · exact getStatsStep_done_ne_pending rfl hw hdv

/-- C3 witness: the theorem applied at the body exposing the flag only at
response.complete, the last of the three locations. -/
theorem claim_C3_witness :
    (doneValue flagRespBody).truthy = true ∧
    doneFlag flagRespBody = .ok (doneValue flagRespBody) ∧
    searchUdmStep ⟨200, "", flagRespBody⟩ ≠ .ok none ∧
    getStatsStep ⟨200, "", flagRespBody⟩ ≠ .ok none := by
  obtain ⟨a, b, -, -, -, c, d⟩ := claim_C3 flagRespBody "" rfl rfl
  exact ⟨a, b, c, d⟩

/-- C4 counterexample.  The body carrying the identifier only in its name
field: extraction from the bare object succeeds through the name
fallback, but extraction from the single-element array fails with the
missing-operation-ID APIError, because the array branch reads only the
operation field of element zero.  So bare object and singleton array do
not always yield the same identifier. -/
theorem claim_C4_counterexample :
    extractOperationId nameOnlyBody = .ok (.str "opId") ∧
    extractOperationId (.arr [nameOnlyBody]) =
      .error (.apiError "No operation ID found in response") :=
  ⟨rfl, rfl⟩

/-- C4 (amended): for every submit body carrying a truthy identifier in
its operation field, extraction from the bare object and from the
single-element array yield that same identifier; the agreement does not
extend to the name field, which only the bare-object branch consults. -/
theorem claim_C4_thm (r v : JVal)
    (hv : objField r "operation" = some v) (ht : v.truthy = true) :
    extractOperationId r = .ok v ∧ extractOperationId (.arr [r]) = .ok v := by
  have hro : isObj r = true := objField_isObj hv
  have hg : r.pyGet "operation" .null = .ok v := by
    rw [pyGet_eval hro, hv]
    rfl
  have htry : extractOperationIdTry r = .ok v := by
    cases r with
    | obj fs => simp only [extractOperationIdTry, hg, eBind_ok, ht, if_true]
    | null => simp [objField] at hv
    | bool b => simp [objField] at hv
    | str s => simp [objField] at hv
    | num n => simp [objField] at hv
    | arr xs => simp [objField] at hv
  have harr : extractOperationIdTry (.arr [r]) = .ok v := by
    have hidx : (JVal.arr [r]).pyIndex 0 = .ok r := rfl
    simp only [extractOperationIdTry, hidx, eBind_ok, hg]
  constructor
  · simp only [extractOperationId, htry, ht, if_true]
  · simp only [extractOperationId, harr, ht, if_true]

/-- C4 witness: the amended theorem applied at the body carrying the
identifier in its operation field. -/
theorem claim_C4_witness :
    extractOperationId operationBody = .ok (.str "op-7") ∧
    extractOperationId (.arr [operationBody]) = .ok (.str "op-7") :=
  claim_C4_thm operationBody (.str "op-7") rfl rfl

/-- C5 counterexample.  A first poll response with status 500 and text
"backend exploded": both loops fail immediately after that one GET, and
the full error message is exactly "Error fetching results: backend
exploded" — it contains the response body but not the digits 500 of the
status code, so the claim that the error carries both the status code and
the body is false on the code. -/
theorem claim_C5_counterexample :
    search_udm_poll (fun _ => badPollResp) 30 =
      (.error (.apiError "Error fetching results: backend exploded"), 1) ∧
    get_stats_poll (fun _ => badPollResp) 30 =
      (.error (.apiError "Error fetching results: backend exploded"), 1) ∧
    strContains "Error fetching results: backend exploded" "backend exploded" = true ∧
    strContains "Error fetching results: backend exploded" "500" = false :=
  ⟨rfl, rfl, rfl, rfl⟩

/-- C5 (amended): when the poll response at attempt k has a non-200
status (after k well-shaped pending responses), both calls fail
immediately with the APIError "Error fetching results: " followed by the
response body text — the status code is not part of the message — and the
loop stops after exactly k + 1 GET attempts, so the failing attempt is
not retried. -/
theorem claim_C5_thm (poll : Nat → HttpResponse) (m k : Nat)
    (hk : k < m)
    (hpre : ∀ i, i < k → (poll i).status = 200 ∧ pollWellShaped (poll i).body = true ∧
      (doneValue (poll i).body).truthy = false)
    (hbad : (poll k).status ≠ 200) :
    search_udm_poll poll m =
      (.error (.apiError ("Error fetching results: " ++ (poll k).text)), k + 1) ∧
    get_stats_poll poll m =
      (.error (.apiError ("Error fetching results: " ++ (poll k).text)), k + 1) := by
  have hs : ∀ i, i < k → searchUdmStep (poll i) = .ok none := fun i hi =>
    searchUdmStep_pending (hpre i hi).1 (hpre i hi).2.1 (hpre i hi).2.2
  have hg : ∀ i, i < k → getStatsStep (poll i) = .ok none := fun i hi =>
    getStatsStep_pending (hpre i hi).1 (hpre i hi).2.1 (hpre i hi).2.2
  constructor
  · unfold search_udm_poll pollLoopFrom
    rw [pollLoopGo_skip searchUdmStep poll m k (m - 0) 0 (by omega)
      fun i h1 h2 => hs i (by omega)]
    obtain ⟨d, hd⟩ : ∃ d, m - 0 - k = d + 1 := ⟨m - 0 - k - 1, by omega⟩
    rw [hd, show 0 + k = k from by omega,
      pollLoopGo_err m d k (searchUdmStep_not200 hbad)]
  · unfold get_stats_poll pollLoopFrom
    rw [pollLoopGo_skip getStatsStep poll m k (m - 0) 0 (by omega)
      fun i h1 h2 => hg i (by omega)]
    obtain ⟨d, hd⟩ : ∃ d, m - 0 - k = d + 1 := ⟨m - 0 - k - 1, by omega⟩
    rw [hd, show 0 + k = k from by omega,
      pollLoopGo_err m d k (getStatsStep_not200 hbad)]

/-- C5 witness: the amended theorem applied with the 500 response at the
first attempt. -/
theorem claim_C5_witness :
    search_udm_poll (fun _ => badPollResp) 5 =
      (.error (.apiError ("Error fetching results: " ++ badPollResp.text)), 1) ∧
    get_stats_poll (fun _ => badPollResp) 5 =
      (.error (.apiError ("Error fetching results: " ++ badPollResp.text)), 1) :=
  claim_C5_thm (fun _ => badPollResp) 5 0 (by omega)
    (fun i hi => absurd hi (by omega)) (by decide)

/-- C6: for every columnar stats input whose column list contains, after
the first column, a column whose values array is shorter than the first
column values array, _process_stats_results fails with the wrapped
processing APIError (the row loop runs up to the first column length and
indexes the shorter column out of range), and never returns a silently
truncated table. -/
theorem claim_C6 (results stats : JVal) (cols : List JVal) (c0 ck : JVal)
    (vs0 vsk : List JVal) (k : Nat)
    (h1 : objField (nodeAt results "response") "stats" = some stats)
    (h2 : objField stats "results" = some (.arr cols))
    (h3 : cols.get? 0 = some c0)
    (h4 : objField c0 "values" = some (.arr vs0))
    (h5 : cols.get? k = some ck)
    (_h6 : 0 < k)
    (h7 : objField ck "values" = some (.arr vsk))
    (h8 : vsk.length < vs0.length) :
    isProcessingError (process_stats_results results) = true := by
  have hev := processStatsTry_eval h1 h2 h3 h4
  unfold process_stats_results
  rw [hev]
  cases hc : collectColumns cols with
  | error e =>
    rw [eBind_error]
    exact isProcessingError_wrap e
  | ok columns =>
    rw [eBind_ok]
    cases hb : buildRowsGo cols vs0.length 0 with
    | error e =>
      rw [eBind_error]
      exact isProcessingError_wrap e
    | ok rows =>
      exfalso
      obtain ⟨row, hrow⟩ :=
        buildRowsGo_ok_each cols vs0.length 0 rows hb vsk.length (by omega) (by omega)
      have := buildRow_values_bound cols [] row hrow k ck vsk h5 h7
      omega

/-- C6 witness: the theorem applied at the input whose second column has
one value while the first has two. -/
theorem claim_C6_witness :
    isProcessingError (process_stats_results statsRagged) = true :=
  claim_C6 statsRagged (.obj [("results", .arr raggedCols)]) raggedCols
    (.obj [("column", .str "host"), ("values", .arr hostValsTwo)])
    (.obj [("column", .str "count"),
      ("values", .arr [.obj [("value", .obj [("int64Val", .str "3")])]])])
    hostValsTwo [.obj [("value", .obj [("int64Val", .str "3")])]] 1
    rfl rfl rfl rfl rfl (by decide) rfl (by decide)

/-- C7 counterexample.  On the exact input the claim writes, with values
entries of the form {stringVal: "a"} and {int64Val: "3"} and no value
wrapper, the code raises KeyError on the value key inside the try block,
so shaping fails with the wrapped processing APIError instead of
producing the claimed row. -/
theorem claim_C7_counterexample :
    process_stats_results statsColumnsBare =
      .error "Error processing stats results: KeyError: value" := rfl

/-- C7 (amended): each values entry is a wrapper object {value: v}; on
such entries the row value for a column is v.stringVal when the stringVal
tag is present, the parsed integer of v.int64Val when only the int64Val
tag is present, and null when neither tag is present; and the wrapped
form of the claim input, columns host/[{value:{stringVal:"a"}}] and
count/[{value:{int64Val:"3"}}], shapes to the single row
{host: "a", count: 3}. -/
theorem claim_C7_thm (col c entry v : JVal) (i : Nat) (vs : List JVal)
    (hcn : objField col "column" = some c)
    (hvals : objField col "values" = some (.arr vs))
    (hentry : vs.get? i = some entry)
    (hvalue : objField entry "value" = some v)
    (hvo : isObj v = true)
    (hhash : hashable c = true) :
    (∀ s, objField v "stringVal" = some s → buildRow i [col] [] = .ok [(c, s)]) ∧
    (objField v "stringVal" = none → ∀ w n, objField v "int64Val" = some w →
      pyIntOf w = .ok n → buildRow i [col] [] = .ok [(c, .num n)]) ∧
    (objField v "stringVal" = none → objField v "int64Val" = none →
      buildRow i [col] [] = .ok [(c, .null)]) ∧
    process_stats_results statsColumnsWrapped =
      .ok (.table [.str "host", .str "count"]
        [[(.str "host", .str "a"), (.str "count", .num 3)]] 1) := by
  have hsub1 : col.pySub "column" = .ok c := pySub_eval hcn
  have hsub2 : col.pySub "values" = .ok (.arr vs) := pySub_eval hvals
  have hidx : (JVal.arr vs).pyIndex i = .ok entry := pyIndex_arr_eval hentry
  have hsubv : entry.pySub "value" = .ok v := pySub_eval hvalue
  have hset : ∀ x, rowSet [] c x = .ok [(c, x)] := by
    intro x
    simp [rowSet, hhash]
  refine ⟨?_, ?_, ?_, rfl⟩
  · intro s hs
    simp only [buildRow, hsub1, eBind_ok, hsub2, hidx, hsubv,
      pyContains_obj hvo, hs, Option.isSome_some, if_true,
      pySub_eval hs, hset, eBind_ok]
  · intro hnone w n hw hn
    simp only [buildRow, hsub1, eBind_ok, hsub2, hidx, hsubv,
      pyContains_obj hvo, hnone, Option.isSome_none, Bool.false_eq_true, if_false,
      hw, Option.isSome_some, if_true, pySub_eval hw, hn, hset, eBind_ok]
  · intro hnone1 hnone2
    simp only [buildRow, hsub1, eBind_ok, hsub2, hidx, hsubv,
      pyContains_obj hvo, hnone1, hnone2, Option.isSome_none, Bool.false_eq_true,
      if_false, hset, eBind_ok]

/-- C7 witness: the amended theorem applied at the wrapped column input,
covering the stringVal branch and the full shaping of the wrapped
input. -/
theorem claim_C7_witness :
    buildRow 0
      [.obj [("column", .str "host"),
        ("values", .arr [.obj [("value", .obj [("stringVal", .str "a")])]])]] [] =
      .ok [(.str "host", .str "a")] ∧
    process_stats_results statsColumnsWrapped =
      .ok (.table [.str "host", .str "count"]
        [[(.str "host", .str "a"), (.str "count", .num 3)]] 1) := by
  have h := claim_C7_thm
    (.obj [("column", .str "host"),
      ("values", .arr [.obj [("value", .obj [("stringVal", .str "a")])]])])
    (.str "host") (.obj [("value", .obj [("stringVal", .str "a")])])
    (.obj [("stringVal", .str "a")]) 0
    [.obj [("value", .obj [("stringVal", .str "a")])]]
    rfl rfl rfl rfl rfl rfl
  exact ⟨h.1 (.str "a") rfl, h.2.2.2⟩

/-- C8: for every well-shaped completed poll response whose events
payload evaluates to a list, search_udm returns that list unchanged
together with total_events equal to its length; with such a response at
the first attempt the whole poll loop returns it after one GET.  In
particular events [e1, e2] yield {events: [e1, e2], total_events: 2}. -/
theorem claim_C8 (r : JVal) (t : String) (poll : Nat → HttpResponse) (m : Nat)
    (es : List JVal)
    (hw : pollWellShaped r = true)
    (hdone : (doneValue r).truthy = true)
    (hev : eventsValue r = .arr es)
    (hm : 0 < m)
    (hp : poll 0 = ⟨200, t, r⟩) :
    searchUdmStep ⟨200, t, r⟩ = .ok (some ⟨.arr es, es.length⟩) ∧
    search_udm_poll poll m = (.ok ⟨.arr es, es.length⟩, 1) := by
  have hstep : searchUdmStep ⟨200, t, r⟩ = .ok (some ⟨.arr es, es.length⟩) :=
    searchUdmStep_done rfl hw hdone hev
  refine ⟨hstep, ?_⟩
  unfold search_udm_poll pollLoopFrom
  obtain ⟨d, hd⟩ : ∃ d, m - 0 = d + 1 := ⟨m - 1, by omega⟩
  rw [hd, pollLoopGo_done m d 0 (by rw [hp]; exact hstep)]

/-- C8 witness: the theorem applied at the completed response carrying
the two events. -/
theorem claim_C8_witness :
    searchUdmStep ⟨200, "", eventsBody⟩ = .ok (some ⟨.arr [ev1, ev2], 2⟩) ∧
    search_udm_poll (fun _ => ⟨200, "", eventsBody⟩) 30 = (.ok ⟨.arr [ev1, ev2], 2⟩, 1) :=
  claim_C8 eventsBody "" (fun _ => ⟨200, "", eventsBody⟩) 30 [ev1, ev2]
    rfl rfl rfl (by omega) rfl

/-- C9: whenever the stats input has a stats block whose results list is
nonempty (with a first column carrying a values array) and
_process_stats_results returns the shaped table without error, the
returned total_rows equals the number of returned rows, and that number
equals the length of the first column values array. -/
theorem claim_C9 (results stats : JVal) (cols : List JVal) (c0 : JVal)
    (vs0 : List JVal) (cs : List JVal) (rs : List Row) (n : Nat)
    (h1 : objField (nodeAt results "response") "stats" = some stats)
    (h2 : objField stats "results" = some (.arr cols))
    (h3 : cols.get? 0 = some c0)
    (h4 : objField c0 "values" = some (.arr vs0))
    (h5 : process_stats_results results = .ok (.table cs rs n)) :
    n = rs.length ∧ rs.length = vs0.length := by
  have hev := processStatsTry_eval h1 h2 h3 h4
  unfold process_stats_results at h5
  rw [hev] at h5
  cases hc : collectColumns cols with
  | error e => rw [hc, eBind_error] at h5; cases h5
  | ok columns =>
    rw [hc, eBind_ok] at h5
    cases hb : buildRowsGo cols vs0.length 0 with
    | error e => rw [hb, eBind_error] at h5; cases h5
    | ok rows =>
      rw [hb, eBind_ok] at h5
      have h6 : StatsOut.table columns rows rows.length = .table cs rs n :=
        Except.ok.inj h5
      cases h6
      exact ⟨rfl, buildRowsGo_length cols vs0.length 0 rs hb⟩

/-- C9 witness: the theorem applied at the consistent two-column
two-row input. -/
theorem claim_C9_witness :
    (2 : Nat) = statsTwoRowsOut.length ∧ statsTwoRowsOut.length = hostValsTwo.length :=
  claim_C9 statsTwoRows (.obj [("results", .arr statsTwoCols)]) statsTwoCols
    (.obj [("column", .str "host"), ("values", .arr hostValsTwo)]) hostValsTwo
    [.str "host", .str "count"] statsTwoRowsOut 2
    rfl rfl rfl rfl rfl

/-- C10: on every input whose response.stats block is absent or falsy
(in particular empty), _process_stats_results returns the empty-case
result {rows: [], columns: []} without raising; and that result, unlike
the shaped table of the non-empty case, carries no total_rows key. -/
theorem claim_C10 (results : JVal)
    (hobj : isObj results = true)
    (hrsp : subOk results "response" = true)
    (hstats : ((objField (nodeAt results "response") "stats").getD (.obj [])).truthy = false) :
    process_stats_results results = .ok .empty ∧
    StatsOut.keys .empty = ["rows", "columns"] ∧
    (StatsOut.keys .empty).contains "total_rows" = false ∧
    ∀ (cs : List JVal) (rs : List Row) (n : Nat),
      (StatsOut.keys (.table cs rs n)).contains "total_rows" = true := by
  refine ⟨?_, rfl, rfl, fun cs rs n => rfl⟩
  unfold process_stats_results processStatsTry
  rw [pyGet_nodeAt hobj "response"]
  simp only [eBind_ok]
  rw [pyGet_eval (isObj_nodeAt hrsp)]
  simp only [eBind_ok]
  rw [if_pos (by simp [hstats])]

/-- C10 witness: the theorem applied at the empty object input, whose
response.stats block is absent. -/
theorem claim_C10_witness :
    process_stats_results (.obj []) = .ok .empty ∧
    (StatsOut.keys .empty).contains "total_rows" = false ∧
    (StatsOut.keys (.table [] [] 0)).contains "total_rows" = true := by
  obtain ⟨a, -, c, d⟩ := claim_C10 (.obj []) rfl rfl rfl
  exact ⟨a, c, d [] [] 0⟩

end GoogleSecOps
